import Mathlib

/-
Shallow embedding of the doclens-kit document pipeline
(classifier, archiver, document store, search) and proofs about it.

Each definition is translated from the corresponding Python function in
src/app; file and function names are kept where Lean allows it.
External effects (regex engine, SQLite, filesystem) are represented by
explicit oracle parameters or injected-failure flags, so the control flow
of each embedded function mirrors the source line by line.
-/

namespace DocLens

/-! ## Classifier (app/services/classifier.py) -/

/-- Classification candidate: the dictionary
`{"doc_type": ..., "confidence": ..., "method": ...}` built by
`classify_by_rules` / `_classify_text_sync`. -/
structure Candidate where
  docType : String
  confidence : ℚ
  method : String
deriving Repr, DecidableEq

/-- Arbitration between the rule-based and the ML result, as written in
`classify_document` (classifier.py lines 44-63): rule result wins outright
at confidence at least 0.8; otherwise the ML result wins at confidence at
least 0.6; otherwise when both exist the higher confidence wins with the
rule result preferred on a tie; otherwise whichever exists is returned. -/
def arbitrate (ruleResult mlResult : Option Candidate) : Option Candidate :=
  match ruleResult with
  | some r =>
    if (8 : ℚ)/10 ≤ r.confidence then some r
    else
      match mlResult with
      | some m =>
        if (6 : ℚ)/10 ≤ m.confidence then some m
        else if m.confidence ≤ r.confidence then some r else some m
      | none => some r
  | none =>
    match mlResult with
    | some m => some m
    | none => none

/-- Embedding of `classify_document` (classifier.py lines 24-67).
The text is `Option String` so that both `None` and the empty string take
the falsy `if not text: return None` branch.  `normalize` stands for
`normalize_text` and `ruleScorer` / `mlScorer` for `classify_by_rules` /
`classify_by_ml` applied to the normalized text. -/
def classify_document (normalize : String → String)
    (ruleScorer mlScorer : String → Option Candidate)
    (text : Option String) : Option Candidate :=
  match text with
  | none => none
  | some t =>
    if t.isEmpty then none
    else
      let t' := normalize t
      arbitrate (ruleScorer t') (mlScorer t')

/-- Arbitration ladder exactly as the specification words it, used to state
the refinement claim about `classify_document`. -/
def arbitrationLadder (ruleResult mlResult : Option Candidate) : Option Candidate :=
  match ruleResult, mlResult with
  | some r, _ =>
    if (8 : ℚ)/10 ≤ r.confidence then some r
    else
      match mlResult with
      | some m =>
        if (6 : ℚ)/10 ≤ m.confidence then some m
        else if r.confidence ≥ m.confidence then some r else some m
      | none => some r
  | none, some m => some m
  | none, none => none

/-- C1: for every nonempty input text, `classify_document` returns exactly
what the spec ladder prescribes on the two candidates: a rule candidate of
confidence at least 0.8 is returned regardless of the ML output; otherwise
an ML candidate of confidence at least 0.6 is returned; otherwise, when
both exist, the higher-confidence one with ties in favour of the rule
candidate; otherwise whichever single candidate exists, or none. -/
theorem classify_document_follows_ladder
    (normalize : String → String) (ruleScorer mlScorer : String → Option Candidate)
    (t : String) (ht : ¬ t.isEmpty) :
    classify_document normalize ruleScorer mlScorer (some t) =
      arbitrationLadder (ruleScorer (normalize t)) (mlScorer (normalize t)) := by
  unfold classify_document arbitrationLadder arbitrate
  simp only [ht, if_false]
  cases hr : ruleScorer (normalize t) with
  | none =>
    cases hm : mlScorer (normalize t) <;> simp
  | some r =>
    cases hm : mlScorer (normalize t) with
    | none => simp
    | some m =>
      by_cases h8 : (8 : ℚ)/10 ≤ r.confidence
      · simp [h8]
      · by_cases h6 : (6 : ℚ)/10 ≤ m.confidence
        · simp [h8, h6]
        · by_cases hge : m.confidence ≤ r.confidence
          · simp [h8, h6, hge, ge_iff_le]
          · simp [h8, h6, hge, ge_iff_le]

/-- Witness for C1 at a concrete input: a rule candidate of confidence 0.5
and an ML candidate of confidence 0.5 resolve the tie towards the rule
candidate, exactly as the ladder says. -/
theorem classify_document_follows_ladder_witness :
    classify_document id
      (fun _ => some ⟨"invoice", 1/2, "rule-based"⟩)
      (fun _ => some ⟨"report", 1/2, "ml"⟩)
      (some "x") =
      arbitrationLadder (some ⟨"invoice", 1/2, "rule-based"⟩)
        (some ⟨"report", 1/2, "ml"⟩) :=
  classify_document_follows_ladder id
    (fun _ => some ⟨"invoice", 1/2, "rule-based"⟩)
    (fun _ => some ⟨"report", 1/2, "ml"⟩) "x" (by decide)

/-- C9: `classify_document` on `None` or on the empty string returns
`None` for every normalizer and every pair of scorers, hence independently
of them — the rule and ML scorers are never consulted and no candidate is
produced. -/
theorem classify_document_empty_none
    (normalize : String → String) (ruleScorer mlScorer : String → Option Candidate) :
    classify_document normalize ruleScorer mlScorer none = none ∧
    classify_document normalize ruleScorer mlScorer (some "") = none := by
  constructor
  · rfl
  · rfl

/-! ## Rule-based scoring (classify_by_rules, classifier.py lines 70-135) -/

/-- One entry of the `patterns` list of a document-type profile; the
`regex` key may be absent. -/
structure TypePattern where
  regex : Option String
deriving Repr, DecidableEq

/-- One entry of `config["document_types"]`: `name` may be absent or the
empty string (both falsy in Python), `keywords` and `patterns` default to
empty lists. -/
structure DocTypeProfile where
  name : Option String
  keywords : List String
  patterns : List TypePattern
deriving Repr, DecidableEq

/-- Python truthiness of an optional string: `None` and `""` are falsy. -/
def strTruthy : Option String → Bool
  | none => false
  | some s => !s.isEmpty

/-- Guard `if not type_name or not (keywords or patterns): continue`
(classifier.py line 95): a profile is skipped unless its name is truthy
and at least one of the two lists is nonempty. -/
def validProfile (p : DocTypeProfile) : Bool :=
  strTruthy p.name && (!p.keywords.isEmpty || !p.patterns.isEmpty)

/-- Count of keywords with `keyword.lower() in text.lower()`
(classifier.py lines 99-102); the containment test is the oracle `km`. -/
def keywordHits (km : String → String → Bool) (text : String)
    (keywords : List String) : ℕ :=
  (keywords.filter (fun k => km k text)).length

/-- Count of patterns with `regex and re.search(regex, text)`
(classifier.py lines 107-111): an absent or empty regex never counts; the
regex engine is the oracle `rm`. -/
def patternHits (rm : String → String → Bool) (text : String)
    (patterns : List TypePattern) : ℕ :=
  (patterns.filter (fun p =>
    match p.regex with
    | some r => !r.isEmpty && rm r text
    | none => false)).length

/-- Combined score of one profile (classifier.py lines 104-116):
`keyword_score * 0.4 + pattern_score * 0.6` where each ratio divides by
`max(1, len(...))`. -/
def typeScore (km rm : String → String → Bool) (text : String)
    (p : DocTypeProfile) : ℚ :=
  ((keywordHits km text p.keywords : ℚ) / (max 1 p.keywords.length : ℕ)) * (4/10)
    + ((patternHits rm text p.patterns : ℚ) / (max 1 p.patterns.length : ℕ)) * (6/10)

/-- Loop of `classify_by_rules` over the profiles, carrying
`(best_match, best_score)` with `best_score` initialised to 0 and updated
only on a strict improvement (classifier.py lines 86-125). -/
def rulesLoop (km rm : String → String → Bool) (text : String) :
    List DocTypeProfile → Option Candidate × ℚ → Option Candidate × ℚ
  | [], acc => acc
  | p :: rest, (best, bestScore) =>
    if validProfile p then
      let s := typeScore km rm text p
      if bestScore < s then
        rulesLoop km rm text rest
          (some ⟨p.name.getD "", s, "rule-based"⟩, s)
      else rulesLoop km rm text rest (best, bestScore)
    else rulesLoop km rm text rest (best, bestScore)

/-- Embedding of `classify_by_rules` (classifier.py lines 70-135): the
profile list is `config["document_types"]` (empty when the config is
missing or empty, which makes the function return `None`), and the final
guard keeps the best match only when its confidence is at least 0.3. -/
def classify_by_rules (km rm : String → String → Bool)
    (documentTypes : List DocTypeProfile) (text : String) : Option Candidate :=
  if documentTypes.isEmpty then none
  else
    match rulesLoop km rm text documentTypes (none, 0) with
    | (some b, _) => if (3 : ℚ)/10 ≤ b.confidence then some b else none
    | (none, _) => none

/-- The maximum combined score over the valid profiles of the list, with
the same left fold shape the loop uses. -/
def maxRuleScore (km rm : String → String → Bool) (text : String)
    (profiles : List DocTypeProfile) : ℚ :=
  profiles.foldl
    (fun acc p => if validProfile p then max acc (typeScore km rm text p) else acc) 0

/-- Running score of the loop is the left fold of `max` over the valid
profiles, seeded with the incoming best score. -/
theorem rulesLoop_snd (km rm : String → String → Bool) (text : String)
    (ps : List DocTypeProfile) :
    ∀ b s, (rulesLoop km rm text ps (b, s)).2 =
      ps.foldl (fun acc p =>
        if validProfile p then max acc (typeScore km rm text p) else acc) s := by
  induction ps with
  | nil => intro b s; rfl
  | cons p rest ih =>
    intro b s
    simp only [rulesLoop, List.foldl_cons]
    cases hv : validProfile p with
    | false => simp only [hv, Bool.false_eq_true, if_false, ih]
    | true =>
      by_cases hs : s < typeScore km rm text p
      · simp only [hv, if_true, hs, ih, max_eq_right (le_of_lt hs)]
      · simp only [hv, if_true, hs, if_false, ih, max_eq_left (not_lt.mp hs)]

/-- Whenever the loop carries a best match whose confidence equals the
running score, the final best match confidence equals the final score. -/
theorem rulesLoop_conf (km rm : String → String → Bool) (text : String)
    (ps : List DocTypeProfile) :
    ∀ b s, (∀ c, b = some c → c.confidence = s) →
      ∀ c, (rulesLoop km rm text ps (b, s)).1 = some c →
        c.confidence = (rulesLoop km rm text ps (b, s)).2 := by
  induction ps with
  | nil =>
    intro b s hb c hc
    exact hb c hc
  | cons p rest ih =>
    intro b s hb c hc
    simp only [rulesLoop] at hc ⊢
    cases hv : validProfile p with
    | false =>
      simp only [hv, Bool.false_eq_true, if_false] at hc ⊢
      exact ih b s hb c hc
    | true =>
      by_cases hs : s < typeScore km rm text p
      · simp only [hv, if_true, hs] at hc ⊢
        refine ih _ _ ?_ c hc
        intro c' hc'
        cases hc'
        rfl
      · simp only [hv, if_true, hs, if_false] at hc ⊢
        exact ih b s hb c hc

/-- A best match produced by the loop either was already the incoming best
match or comes from one of the profiles of the list, with its name, its
score as confidence, and the fixed method tag. -/
theorem rulesLoop_provenance (km rm : String → String → Bool) (text : String)
    (ps : List DocTypeProfile) :
    ∀ b s c, (rulesLoop km rm text ps (b, s)).1 = some c →
      b = some c ∨ ∃ p ∈ ps, validProfile p = true ∧
        p.name.getD "" = c.docType ∧ typeScore km rm text p = c.confidence ∧
        c.method = "rule-based" := by
  induction ps with
  | nil =>
    intro b s c hc
    exact Or.inl hc
  | cons p rest ih =>
    intro b s c hc
    simp only [rulesLoop] at hc
    cases hv : validProfile p with
    | false =>
      simp only [hv, Bool.false_eq_true, if_false] at hc
      rcases ih b s c hc with h | ⟨q, hq, hrest⟩
      · exact Or.inl h
      · exact Or.inr ⟨q, List.mem_cons_of_mem p hq, hrest⟩
    | true =>
      by_cases hs : s < typeScore km rm text p
      · simp only [hv, if_true, hs] at hc
        rcases ih _ _ c hc with h | ⟨q, hq, hrest⟩
        · cases h
          exact Or.inr ⟨p, List.mem_cons_self p rest, hv, rfl, rfl, rfl⟩
        · exact Or.inr ⟨q, List.mem_cons_of_mem p hq, hrest⟩
      · simp only [hv, if_true, hs, if_false] at hc
        rcases ih b s c hc with h | ⟨q, hq, hrest⟩
        · exact Or.inl h
        · exact Or.inr ⟨q, List.mem_cons_of_mem p hq, hrest⟩

/-- When the loop returns no best match, nothing was ever updated: the
incoming pair is returned unchanged. -/
theorem rulesLoop_none (km rm : String → String → Bool) (text : String)
    (ps : List DocTypeProfile) :
    ∀ b s, (rulesLoop km rm text ps (b, s)).1 = none →
      b = none ∧ (rulesLoop km rm text ps (b, s)).2 = s := by
  induction ps with
  | nil =>
    intro b s hc
    exact ⟨hc, rfl⟩
  | cons p rest ih =>
    intro b s hc
    simp only [rulesLoop] at hc ⊢
    cases hv : validProfile p with
    | false =>
      simp only [hv, Bool.false_eq_true, if_false] at hc ⊢
      exact ih b s hc
    | true =>
      by_cases hs : s < typeScore km rm text p
      · simp only [hv, if_true, hs] at hc
        exact absurd (ih _ _ hc).1 (by simp)
      · simp only [hv, if_true, hs, if_false] at hc ⊢
        exact ih b s hc

/-- C5: the per-profile rule score is 0.4 times the keyword-hit ratio plus
0.6 times the pattern-hit ratio, the ratios taken over the actual list
lengths whenever the lists are nonempty; any returned rule candidate
carries the maximum score over all valid profiles as its confidence, is at
least 0.3, and names a profile realising that score; and conversely a
maximum score of at least 0.3 guarantees a candidate is returned. -/
theorem classify_by_rules_scoring (km rm : String → String → Bool) (text : String)
    (documentTypes : List DocTypeProfile) :
    (∀ p ∈ documentTypes, p.keywords ≠ [] → p.patterns ≠ [] →
      typeScore km rm text p =
        (4/10) * ((keywordHits km text p.keywords : ℚ) / (p.keywords.length : ℕ))
          + (6/10) * ((patternHits rm text p.patterns : ℚ) / (p.patterns.length : ℕ))) ∧
    (∀ c, classify_by_rules km rm documentTypes text = some c →
      c.confidence = maxRuleScore km rm text documentTypes ∧
      (3 : ℚ)/10 ≤ c.confidence ∧
      ∃ p ∈ documentTypes, validProfile p = true ∧ p.name.getD "" = c.docType ∧
        typeScore km rm text p = c.confidence) ∧
    ((3 : ℚ)/10 ≤ maxRuleScore km rm text documentTypes →
      ∃ c, classify_by_rules km rm documentTypes text = some c) := by
  have hsnd : (rulesLoop km rm text documentTypes (none, 0)).2 =
      maxRuleScore km rm text documentTypes :=
    rulesLoop_snd km rm text documentTypes none 0
  refine ⟨?_, ?_, ?_⟩
  · intro p _ hk hpat
    unfold typeScore
    rw [Nat.max_eq_right (List.length_pos.mpr hk),
      Nat.max_eq_right (List.length_pos.mpr hpat)]
    ring
  · intro c hc
    unfold classify_by_rules at hc
    by_cases he : documentTypes.isEmpty
    · simp [he] at hc
    · simp only [he, if_false] at hc
      rcases hloop : rulesLoop km rm text documentTypes (none, 0) with ⟨b0, s0⟩
      rw [hloop] at hc
      cases b0 with
      | none => simp at hc
      | some b =>
        by_cases h3 : (3 : ℚ)/10 ≤ b.confidence
        · simp only [h3, if_true, Bool.false_eq_true, if_false,
            Option.some.injEq] at hc
          subst hc
          have hconf : b.confidence = (rulesLoop km rm text documentTypes (none, 0)).2 :=
            rulesLoop_conf km rm text documentTypes none 0
              (by intro c' hc'; cases hc') b (by rw [hloop])
          have hprov := rulesLoop_provenance km rm text documentTypes none 0 b
            (by rw [hloop])
          rcases hprov with h | ⟨p, hp, hvp, hname, hscore, _⟩
          · cases h
          · exact ⟨by rw [hconf, hsnd], h3, p, hp, hvp, hname, hscore⟩
        · simp [h3] at hc
  · intro h3
    by_cases he : documentTypes.isEmpty
    · rw [List.isEmpty_iff.mp he] at h3
      norm_num [maxRuleScore] at h3
    · rcases hloop : rulesLoop km rm text documentTypes (none, 0) with ⟨b0, s0⟩
      cases b0 with
      | none =>
        have hz := rulesLoop_none km rm text documentTypes none 0 (by rw [hloop])
        rw [hloop] at hz hsnd
        simp only at hz hsnd
        rw [hz.2] at hsnd
        rw [← hsnd] at h3
        norm_num at h3
      | some b =>
        have hconf : b.confidence = (rulesLoop km rm text documentTypes (none, 0)).2 :=
          rulesLoop_conf km rm text documentTypes none 0
            (by intro c' hc'; cases hc') b (by rw [hloop])
        rw [hloop] at hconf
        simp only at hconf
        refine ⟨b, ?_⟩
        unfold classify_by_rules
        rw [if_neg he, hloop]
        have : (3 : ℚ)/10 ≤ b.confidence := by
          rw [hconf]
          have := hsnd
          rw [hloop] at this
          simp only at this
          rw [this]
          exact h3
        simp [this]

/-- Matching oracle that reports a hit for every keyword and pattern, used
to instantiate theorems at concrete inputs. -/
def allMatch : String → String → Bool := fun _ _ => true

/-- Concrete single-keyword, single-pattern profile used to instantiate
theorems at concrete inputs. -/
def invoiceProfile : DocTypeProfile := ⟨some "invoice", ["a"], [⟨some "x"⟩]⟩

/-- Witness for C5 at a concrete input: with one valid profile whose
keyword and pattern both hit, the score equation holds with the actual
list lengths and a rule candidate is returned. -/
theorem classify_by_rules_scoring_witness :
    (typeScore allMatch allMatch "t" invoiceProfile =
      (4/10) * ((keywordHits allMatch "t" invoiceProfile.keywords : ℚ) /
          (invoiceProfile.keywords.length : ℕ))
        + (6/10) * ((patternHits allMatch "t" invoiceProfile.patterns : ℚ) /
          (invoiceProfile.patterns.length : ℕ))) ∧
    ∃ c, classify_by_rules allMatch allMatch [invoiceProfile] "t" = some c :=
  ⟨(classify_by_rules_scoring allMatch allMatch "t" [invoiceProfile]).1
      invoiceProfile (by decide) (by decide) (by decide),
   (classify_by_rules_scoring allMatch allMatch "t" [invoiceProfile]).2.2
     (by
       have h1 : "invoice".isEmpty = false := by decide
       have h2 : "x".isEmpty = false := by decide
       norm_num [maxRuleScore, typeScore, validProfile, strTruthy, keywordHits,
         patternHits, allMatch, invoiceProfile, List.filter, h1, h2])⟩

/-! ## Date extraction (extract_date, app/utils/text_utils.py lines 43-78) -/

/-- Gregorian leap-year rule, as implemented by the Python `datetime`
module. -/
def isLeapYear (y : ℕ) : Bool :=
  (y % 4 == 0 && y % 100 != 0) || y % 400 == 0

/-- Number of days of a month in the Gregorian calendar; 0 for a month
index outside 1..12. -/
def daysInMonth (y m : ℕ) : ℕ :=
  if m = 1 ∨ m = 3 ∨ m = 5 ∨ m = 7 ∨ m = 8 ∨ m = 10 ∨ m = 12 then 31
  else if m = 4 ∨ m = 6 ∨ m = 9 ∨ m = 11 then 30
  else if m = 2 then (if isLeapYear y then 29 else 28)
  else 0

/-- Validity condition enforced by the `datetime.date` constructor
(which raises `ValueError` otherwise): year in 1..9999, month in 1..12,
day within the actual length of the month. -/
def pyDateValid (y m d : ℕ) : Bool :=
  1 ≤ y && y ≤ 9999 && 1 ≤ m && m ≤ 12 && 1 ≤ d && d ≤ daysInMonth y m

/-- Value of a successfully constructed `datetime.date`. -/
structure PyDate where
  year : ℕ
  month : ℕ
  day : ℕ
deriving Repr, DecidableEq

/-- Model of the `datetime.date(year, month, day)` call: a date on valid
components, `none` standing for the raised `ValueError`. -/
def mkDate (y m d : ℕ) : Option PyDate :=
  if pyDateValid y m d then some ⟨y, m, d⟩ else none

/-- The three date regexes tried in order by `extract_date`
(text_utils.py lines 54-61). -/
def datePatterns : List String :=
  ["(\\d\x7b4\x7d)年(\\d\x7b1,2\x7d)月(\\d\x7b1,2\x7d)日",
   "(\\d\x7b4\x7d)/(\\d\x7b1,2\x7d)/(\\d\x7b1,2\x7d)",
   "(\\d\x7b4\x7d)-(\\d\x7b1,2\x7d)-(\\d\x7b1,2\x7d)"]

/-- One iteration of the pattern loop of `extract_date` (text_utils.py
lines 63-76): no regex match, a failed range check, or a `ValueError`
from `datetime.date` all fall through to the next pattern.  `search`
is the regex engine returning the three integer-parsed capture groups. -/
def extractDateGo (search : String → String → Option (ℕ × ℕ × ℕ))
    (text : String) : List String → Option PyDate
  | [] => none
  | p :: rest =>
    match search p text with
    | some (y, m, d) =>
      if 1900 ≤ y ∧ y ≤ 2100 ∧ 1 ≤ m ∧ m ≤ 12 ∧ 1 ≤ d ∧ d ≤ 31 then
        match mkDate y m d with
        | some date => some date
        | none => extractDateGo search text rest
      else extractDateGo search text rest
    | none => extractDateGo search text rest

/-- Embedding of `extract_date` (text_utils.py lines 43-78). -/
def extract_date (search : String → String → Option (ℕ × ℕ × ℕ))
    (text : String) : Option PyDate :=
  extractDateGo search text datePatterns

/-- C10: `extract_date` is total and only returns real calendar dates:
whatever the regex engine reports, a returned date satisfies the range
checks of the source and is a valid Gregorian date, and a match whose
components fall inside the 1900-2100 / 1-12 / 1-31 ranges but do not form
a real date makes the loop move on to the next pattern instead of
raising. -/
theorem extract_date_total_valid (search : String → String → Option (ℕ × ℕ × ℕ))
    (text : String) :
    (∀ dt, extract_date search text = some dt →
      1900 ≤ dt.year ∧ dt.year ≤ 2100 ∧ 1 ≤ dt.month ∧ dt.month ≤ 12 ∧
        1 ≤ dt.day ∧ dt.day ≤ daysInMonth dt.year dt.month) ∧
    (∀ p ps y m d, search p text = some (y, m, d) → pyDateValid y m d = false →
      extractDateGo search text (p :: ps) = extractDateGo search text ps) := by
  constructor
  · intro dt
    unfold extract_date
    generalize datePatterns = ps
    induction ps with
    | nil => intro h; cases h
    | cons p rest ih =>
      intro h
      cases hs : search p text with
      | none =>
        simp only [extractDateGo, hs] at h
        exact ih h
      | some ymd =>
        rcases ymd with ⟨y, m, d⟩
        simp only [extractDateGo, hs] at h
        by_cases hr : 1900 ≤ y ∧ y ≤ 2100 ∧ 1 ≤ m ∧ m ≤ 12 ∧ 1 ≤ d ∧ d ≤ 31
        · rw [if_pos hr] at h
          cases hmk : mkDate y m d with
          | none =>
            rw [hmk] at h
            exact ih h
          | some date =>
            rw [hmk] at h
            cases h
            unfold mkDate at hmk
            by_cases hv : pyDateValid y m d = true
            · rw [if_pos hv] at hmk
              cases hmk
              unfold pyDateValid at hv
              simp only [Bool.and_eq_true, decide_eq_true_eq] at hv
              exact ⟨hr.1, hr.2.1, hr.2.2.1, hr.2.2.2.1, hv.1.2, hv.2⟩
            · rw [if_neg hv] at hmk
              cases hmk
        · rw [if_neg hr] at h
          exact ih h
  · intro p ps y m d hs hv
    simp only [extractDateGo, hs]
    by_cases hr : 1900 ≤ y ∧ y ≤ 2100 ∧ 1 ≤ m ∧ m ≤ 12 ∧ 1 ≤ d ∧ d ≤ 31
    · rw [if_pos hr]
      unfold mkDate
      rw [hv]
      simp
    · rw [if_neg hr]

/-- Regex oracle for a text where the Japanese date pattern matches the
non-existent 31st of February 2023 and the later patterns match the 15th
of March 2023. -/
def feb31Search : String → String → Option (ℕ × ℕ × ℕ) := fun p _ =>
  if p = "(\\d\x7b4\x7d)年(\\d\x7b1,2\x7d)月(\\d\x7b1,2\x7d)日" then some (2023, 2, 31)
  else some (2023, 3, 15)

/-- Witness for C10 at a concrete input: the date finally extracted after
a February-31st first match is a real calendar date, and the first-match
failure makes the loop move to the later patterns. -/
theorem extract_date_total_valid_witness :
    (1900 ≤ (PyDate.mk 2023 3 15).year ∧ (PyDate.mk 2023 3 15).year ≤ 2100 ∧
      1 ≤ (PyDate.mk 2023 3 15).month ∧ (PyDate.mk 2023 3 15).month ≤ 12 ∧
      1 ≤ (PyDate.mk 2023 3 15).day ∧
      (PyDate.mk 2023 3 15).day ≤
        daysInMonth (PyDate.mk 2023 3 15).year (PyDate.mk 2023 3 15).month) ∧
    extractDateGo feb31Search "doc" datePatterns =
      extractDateGo feb31Search "doc" datePatterns.tail :=
  ⟨(extract_date_total_valid feb31Search "doc").1 ⟨2023, 3, 15⟩ (by decide),
   (extract_date_total_valid feb31Search "doc").2
     "(\\d\x7b4\x7d)年(\\d\x7b1,2\x7d)月(\\d\x7b1,2\x7d)日"
     ["(\\d\x7b4\x7d)/(\\d\x7b1,2\x7d)/(\\d\x7b1,2\x7d)",
      "(\\d\x7b4\x7d)-(\\d\x7b1,2\x7d)-(\\d\x7b1,2\x7d)"]
     2023 2 31 (by decide) (by decide)⟩

/-! ## Document store rows (schema of app/core/database.py) -/

/-- Row of the `documents` table. -/
structure DocRow where
  id : ℕ
  title : String
  doc_type : Option String
  file_path : String
  file_size : ℕ
  mime_type : String
  created_at : String
  updated_at : String
  status : String
  department : Option String
  uploader : Option String
deriving Repr, DecidableEq

/-- Row of the `document_content` table. -/
structure ContentRow where
  document_id : ℕ
  content : String
deriving Repr, DecidableEq

/-- Row of the `document_fields` table. -/
structure FieldRow where
  id : ℕ
  document_id : ℕ
  field_name : String
  field_value : String
  confidence : ℚ
deriving Repr, DecidableEq

/-- Row of the `document_relations` table. -/
structure RelationRow where
  id : ℕ
  document_id : ℕ
  related_document_id : ℕ
  relation_type : String
deriving Repr, DecidableEq

/-- Row of the `feedback` table. -/
structure FeedbackRow where
  id : ℕ
  document_id : ℕ
  original_classification : Option String
  corrected_classification : Option String
  feedback_date : String
  applied : Bool
deriving Repr, DecidableEq

/-- The hot Document Store: one table of each kind. -/
structure StoreDb where
  documents : List DocRow
  content : List ContentRow
  fields : List FieldRow
  relations : List RelationRow
  feedback : List FeedbackRow
deriving Repr, DecidableEq

/-! ## Archive data copy (_copy_data_to_archive_sync, archiver.py 230-351) -/

/-- Tables of a freshly written archive partition database. -/
structure ArchiveDb where
  documents : List DocRow
  content : List ContentRow
  fields : List FieldRow
  relations : List RelationRow
deriving Repr, DecidableEq

/-- Embedding of `_copy_data_to_archive_sync` (archiver.py lines 230-351):
document rows with id in the cohort, the first content row per cohort id,
field rows with document_id in the cohort, and — from the relation rows
fetched with `document_id IN ids OR related_document_id IN ids` — only
those whose two endpoints are both in the cohort. -/
def copy_data_to_archive (src : StoreDb) (document_ids : List ℕ) : ArchiveDb :=
  { documents := src.documents.filter (fun d => document_ids.contains d.id)
    content := document_ids.filterMap (fun i =>
      src.content.find? (fun c => c.document_id == i))
    fields := src.fields.filter (fun f => document_ids.contains f.document_id)
    relations := (src.relations.filter (fun r =>
        document_ids.contains r.document_id ||
          document_ids.contains r.related_document_id)).filter
      (fun r => document_ids.contains r.document_id &&
        document_ids.contains r.related_document_id) }

/-- C6: a relation row lands in the partition if and only if it is a
source relation row whose two endpoint ids both belong to the migrated
cohort; a relation with only one migrated endpoint is dropped. -/
theorem copy_relations_iff (src : StoreDb) (document_ids : List ℕ)
    (r : RelationRow) :
    r ∈ (copy_data_to_archive src document_ids).relations ↔
      r ∈ src.relations ∧ r.document_id ∈ document_ids ∧
        r.related_document_id ∈ document_ids := by
  unfold copy_data_to_archive
  simp only [List.mem_filter, Bool.and_eq_true, Bool.or_eq_true, List.elem_iff]
  constructor
  · rintro ⟨⟨hr, -⟩, hboth⟩
    exact ⟨hr, hboth⟩
  · rintro ⟨hr, h1, h2⟩
    exact ⟨⟨hr, Or.inl h1⟩, h1, h2⟩

/-! ## Archive migration (create_archive, archiver.py lines 18-105) -/

/-- Zero-padded two-digit rendering of a number (`%02d`). -/
def pad2 (n : ℕ) : String :=
  if n < 10 then "0" ++ toString n else toString n

/-- Zero-padded four-digit rendering of a number (`%04d`). -/
def pad4 (n : ℕ) : String :=
  if n < 10 then "000" ++ toString n
  else if n < 100 then "00" ++ toString n
  else if n < 1000 then "0" ++ toString n
  else toString n

/-- Half-open ISO timestamp range of a month (archiver.py lines 45-51). -/
def monthRange (year month : ℕ) : String × String :=
  (pad4 year ++ "-" ++ pad2 month ++ "-01T00:00:00",
   if month = 12 then pad4 (year + 1) ++ "-01-01T00:00:00"
   else pad4 year ++ "-" ++ pad2 (month + 1) ++ "-01T00:00:00")

/-- Cohort selection of `create_archive` (archiver.py lines 54-62): active
documents whose `created_at` falls in the half-open month range, the
timestamps compared as strings like SQLite compares TEXT. -/
def matchedDocs (docs : List DocRow) (year month : ℕ) : List DocRow :=
  let r := monthRange year month
  docs.filter (fun d =>
    decide (r.1 ≤ d.created_at) && decide (d.created_at < r.2) &&
      d.status == "active")

/-- Fallible operations of a `create_archive` run, in execution order:
partition database creation, database copy, backing-file copy, the status
update (whose failure `execute_update` swallows), and compression. -/
inductive ArchiveStep where
  | dbCreate
  | dataCopy
  | fileCopy
  | statusFlip
  | zipStep
deriving Repr, DecidableEq

/-- The status update of archiver.py lines 82-89: every document whose id
is in the cohort becomes `archived`. -/
def flipArchived (docs : List DocRow) (ids : List ℕ) : List DocRow :=
  docs.map (fun d => if ids.contains d.id then { d with status := "archived" } else d)

/-- Embedding of `create_archive` (archiver.py lines 18-105).  `fails`
injects a failure into each fallible operation; an exception anywhere in
the body is caught by the outer handler which returns `None`, and a failed
status update is swallowed by `execute_update`.  The result is the hot
`documents` table after the run together with the returned path. -/
def create_archive (archivePath : String)
    (archiveZip removeAfterZip zipExists : Bool)
    (fails : ArchiveStep → Bool) (docs : List DocRow)
    (year month : ℕ) : List DocRow × Option String :=
  if ¬(1900 ≤ year ∧ year ≤ 2100 ∧ 1 ≤ month ∧ month ≤ 12) then (docs, none)
  else
    let matched := matchedDocs docs year month
    if matched.isEmpty then (docs, none)
    else if fails .dbCreate then (docs, none)
    else if fails .dataCopy then (docs, none)
    else if fails .fileCopy then (docs, none)
    else
      let ids := matched.map (·.id)
      let docs2 := if fails .statusFlip then docs else flipArchived docs ids
      let archiveDir := archivePath ++ "/" ++ pad4 year ++ "-" ++ pad2 month
      if archiveZip then
        if fails .zipStep then (docs2, none)
        else if zipExists && removeAfterZip then
          (docs2, some (archivePath ++ "/archive_" ++ pad4 year ++ "-" ++
            pad2 month ++ ".zip"))
        else (docs2, some archiveDir)
      else (docs2, some archiveDir)

/-- C2: a failure in partition creation, database copy or file copy makes
`create_archive` return with the hot store untouched; and conversely
whenever the hot store changed, those three steps all succeeded and the
change is exactly the flip of the matched cohort to `archived`. -/
theorem create_archive_commit_point (archivePath : String)
    (archiveZip removeAfterZip zipExists : Bool)
    (fails : ArchiveStep → Bool) (docs : List DocRow) (year month : ℕ) :
    ((fails .dbCreate = true ∨ fails .dataCopy = true ∨ fails .fileCopy = true) →
      create_archive archivePath archiveZip removeAfterZip zipExists
        fails docs year month = (docs, none)) ∧
    ((create_archive archivePath archiveZip removeAfterZip zipExists
        fails docs year month).1 ≠ docs →
      fails .dbCreate = false ∧ fails .dataCopy = false ∧ fails .fileCopy = false ∧
      (create_archive archivePath archiveZip removeAfterZip zipExists
        fails docs year month).1 =
        flipArchived docs ((matchedDocs docs year month).map (·.id))) := by
  have hshape : create_archive archivePath archiveZip removeAfterZip zipExists
        fails docs year month = (docs, none) ∨
      (fails .dbCreate = false ∧ fails .dataCopy = false ∧ fails .fileCopy = false ∧
        (create_archive archivePath archiveZip removeAfterZip zipExists
          fails docs year month).1 =
          (if fails .statusFlip then docs
           else flipArchived docs ((matchedDocs docs year month).map (·.id)))) := by
    simp only [create_archive]
    by_cases hval : ¬(1900 ≤ year ∧ year ≤ 2100 ∧ 1 ≤ month ∧ month ≤ 12)
    · rw [if_pos hval]
      exact Or.inl rfl
    · rw [if_neg hval]
      by_cases hemp : (matchedDocs docs year month).isEmpty = true
      · rw [if_pos hemp]
        exact Or.inl rfl
      · rw [if_neg hemp]
        by_cases h1 : fails ArchiveStep.dbCreate = true
        · rw [if_pos h1]
          exact Or.inl rfl
        · rw [if_neg h1]
          by_cases h2 : fails ArchiveStep.dataCopy = true
          · rw [if_pos h2]
            exact Or.inl rfl
          · rw [if_neg h2]
            by_cases h3 : fails ArchiveStep.fileCopy = true
            · rw [if_pos h3]
              exact Or.inl rfl
            · rw [if_neg h3]
              refine Or.inr ⟨by simpa using h1, by simpa using h2, by simpa using h3, ?_⟩
              by_cases hz : archiveZip = true
              · rw [if_pos hz]
                by_cases h5 : fails ArchiveStep.zipStep = true
                · rw [if_pos h5]
                · rw [if_neg h5]
                  by_cases h6 : (zipExists && removeAfterZip) = true
                  · rw [if_pos h6]
                  · rw [if_neg h6]
              · rw [if_neg hz]
  constructor
  · intro h
    rcases hshape with hs | ⟨h1, h2, h3, -⟩
    · exact hs
    · rcases h with h | h | h <;> simp_all
  · intro hne
    rcases hshape with hs | ⟨h1, h2, h3, h4⟩
    · exact absurd (congrArg Prod.fst hs) hne
    · refine ⟨h1, h2, h3, ?_⟩
      by_cases hsf : fails ArchiveStep.statusFlip = true
      · rw [if_pos hsf] at h4
        exact absurd h4 hne
      · rw [if_neg hsf] at h4
        exact h4

/-- Concrete active document created in March 2023. -/
def sampleDoc : DocRow :=
  ⟨1, "請求書", some "invoice", "2023/03/doc.pdf", 145678, "application/pdf",
   "2023-03-15T10:30:00", "2023-03-15T10:30:00", "active", none, none⟩

/-- Failure injection that makes only the database copy step raise. -/
def failDataCopy : ArchiveStep → Bool :=
  fun s => decide (s = ArchiveStep.dataCopy)

/-- Witness for C2 at a concrete input: with one matched document and a
failing database copy, the run returns `None` and the hot store is
untouched. -/
theorem create_archive_commit_point_witness :
    create_archive "archive" false false false failDataCopy [sampleDoc] 2023 3 =
      ([sampleDoc], none) :=
  (create_archive_commit_point "archive" false false false failDataCopy
    [sampleDoc] 2023 3).1 (Or.inr (Or.inl (by decide)))

/-! ## Retention pruning (clean_old_archives, archiver.py lines 394-437) -/

/-- Kind of a directory entry as seen by `os.path.isdir` /
`os.path.isfile`. -/
inductive EntryKind where
  | dir
  | file
  | other
deriving Repr, DecidableEq

/-- Exception raised inside the pruning loop.  `archiver.py` never imports
the `re` module, so the first evaluation of `re.match` in
`clean_old_archives` raises `NameError`. -/
inductive PyExc where
  | nameError
deriving Repr, DecidableEq

/-- Body of `clean_old_archives` up to its exception handler (archiver.py
lines 405-434), returning the list of paths it deletes.  For a directory
entry the condition `os.path.isdir(item_path) and re.match(...)` reaches
`re.match`, and for a file entry the `elif os.path.isfile(item_path) and
re.match(...)` does; either evaluation raises `NameError` because `re` is
not imported in this module.  Only an entry that is neither file nor
directory short-circuits past both conditions.  With every entry skipped,
`archive_dirs` stays empty and nothing is deleted. -/
def cleanOldArchivesBody (entries : List (String × EntryKind))
    (_keepCount : ℕ) : Except PyExc (List String) :=
  if entries.any (fun e => e.2 ≠ EntryKind.other) then Except.error PyExc.nameError
  else Except.ok []

/-- Embedding of `clean_old_archives` (archiver.py lines 394-437): the
catch-all handler turns any exception into a logged warning, so the
observable outcome is just the list of deleted archive paths. -/
def clean_old_archives (entries : List (String × EntryKind))
    (keepCount : ℕ) : List String :=
  match cleanOldArchivesBody entries keepCount with
  | Except.ok deleted => deleted
  | Except.error _ => []

/-- Retention pruning as the specification intends it: sort the period
keys descending, keep the `keepCount` most recent and delete the rest.
Stated here only to exhibit the divergence of the code from the claim. -/
def specRetentionPrune (entries : List (String × EntryKind))
    (keepCount : ℕ) : List String :=
  ((entries.map Prod.fst).insertionSort (fun a b => b ≤ a)).drop keepCount

/-- C4 (divergence witness): `clean_old_archives` never deletes anything.
On a listing of three period directories with keep-count 1 the body stops
with a `NameError` (module `re` is used but never imported in archiver.py)
and the handler swallows it, whereas the claimed pruning would delete the
two oldest partitions; and in general the function deletes nothing on any
listing. -/
theorem clean_old_archives_never_deletes :
    cleanOldArchivesBody
        [("2023-01", EntryKind.dir), ("2023-02", EntryKind.dir),
         ("2023-03", EntryKind.dir)] 1 = Except.error PyExc.nameError ∧
    clean_old_archives
        [("2023-01", EntryKind.dir), ("2023-02", EntryKind.dir),
         ("2023-03", EntryKind.dir)] 1 = [] ∧
    specRetentionPrune
        [("2023-01", EntryKind.dir), ("2023-02", EntryKind.dir),
         ("2023-03", EntryKind.dir)] 1 = ["2023-02", "2023-01"] ∧
    ∀ entries keepCount, clean_old_archives entries keepCount = [] := by
  refine ⟨rfl, rfl, ?_, ?_⟩
  · simp only [specRetentionPrune, List.map, List.insertionSort, List.orderedInsert,
      String.le_iff_toList_le]
    decide
  intro entries keepCount
  unfold clean_old_archives cleanOldArchivesBody
  by_cases h : entries.any (fun e => e.2 ≠ EntryKind.other) = true
  · rw [if_pos h]
  · rw [if_neg h]

/-! ## Permanent deletion paths (app/api/documents.py 505-523 and
purge_deleted_documents, archiver.py 476-557) -/

/-- `DELETE FROM document_fields WHERE document_id = ?`. -/
def deleteFieldsFor (docId : ℕ) (db : StoreDb) : StoreDb :=
  { db with fields := db.fields.filter (fun f => f.document_id != docId) }

/-- `DELETE FROM document_content WHERE document_id = ?`. -/
def deleteContentFor (docId : ℕ) (db : StoreDb) : StoreDb :=
  { db with content := db.content.filter (fun c => c.document_id != docId) }

/-- `DELETE FROM document_relations WHERE document_id = ? OR
related_document_id = ?`. -/
def deleteRelationsFor (docId : ℕ) (db : StoreDb) : StoreDb :=
  { db with relations := db.relations.filter (fun r =>
      !(r.document_id == docId || r.related_document_id == docId)) }

/-- `DELETE FROM feedback WHERE document_id = ?`. -/
def deleteFeedbackFor (docId : ℕ) (db : StoreDb) : StoreDb :=
  { db with feedback := db.feedback.filter (fun f => f.document_id != docId) }

/-- `DELETE FROM documents WHERE id = ?`. -/
def deleteDocRow (docId : ℕ) (db : StoreDb) : StoreDb :=
  { db with documents := db.documents.filter (fun d => d.id != docId) }

/-- The five row deletions of a permanent delete, in the order both code
paths issue them (fields, content, relations, feedback, document row). -/
def permanentDeleteOps (docId : ℕ) : List (StoreDb → StoreDb) :=
  [deleteFieldsFor docId, deleteContentFor docId, deleteRelationsFor docId,
   deleteFeedbackFor docId, deleteDocRow docId]

/-- Sequential application of a list of mutations. -/
def applyOps : List (StoreDb → StoreDb) → StoreDb → StoreDb
  | [], db => db
  | op :: rest, db => applyOps rest (op db)

/-- Statements of `execute_transaction` (app/core/database.py 199-216)
executed inside `BEGIN TRANSACTION`: the first failing statement (index
`i` with `fails i = true`) aborts the whole batch with `none`. -/
def runTransactionOps (fails : ℕ → Bool) :
    ℕ → List (StoreDb → StoreDb) → StoreDb → Option StoreDb
  | _, [], db => some db
  | i, op :: rest, db =>
    if fails i then none else runTransactionOps fails (i + 1) rest (op db)

/-- Embedding of `execute_transaction` (database.py 199-216): on any
statement failure the transaction is rolled back and `False` returned,
otherwise the fully mutated state is committed with `True`. -/
def execute_transaction (fails : ℕ → Bool) (ops : List (StoreDb → StoreDb))
    (db : StoreDb) : StoreDb × Bool :=
  match runTransactionOps fails 0 ops db with
  | some db2 => (db2, true)
  | none => (db, false)

/-- Permanent branch of `delete_document` (documents.py 505-523): the five
row deletions run inside one `execute_transaction` call. -/
def delete_document_permanent (fails : ℕ → Bool) (docId : ℕ)
    (db : StoreDb) : StoreDb × Bool :=
  execute_transaction fails (permanentDeleteOps docId) db

/-- Statements issued by `purge_deleted_documents` for one document
(archiver.py 518-552): five separate `execute_update` calls, each with its
own commit; `execute_update` swallows a failure (returns `False`, which
the caller ignores) and the loop simply continues with the next
statement. -/
def runUpdates (fails : ℕ → Bool) :
    ℕ → List (StoreDb → StoreDb) → StoreDb → StoreDb
  | _, [], db => db
  | i, op :: rest, db =>
    runUpdates fails (i + 1) rest (if fails i then db else op db)

/-- Embedding of `purge_deleted_documents` (archiver.py 476-557): select
the soft-deleted documents older than the cutoff, then run the five
per-document deletions as independent auto-committed statements.
`fails i j` injects a failure into statement `j` for the `i`-th selected
document.  (The backing-file removal touches only the filesystem and is
not part of the store state.) -/
def purge_deleted_documents (cutoff : String) (fails : ℕ → ℕ → Bool)
    (db : StoreDb) : StoreDb :=
  let docs := db.documents.filter (fun d =>
    d.status == "deleted" && decide (d.updated_at < cutoff))
  docs.enum.foldl
    (fun acc x => runUpdates (fails x.1) 0 (permanentDeleteOps x.2.id) acc) db

/-- A committed transaction applied every statement. -/
theorem runTransactionOps_some (fails : ℕ → Bool)
    (ops : List (StoreDb → StoreDb)) :
    ∀ i db db2, runTransactionOps fails i ops db = some db2 →
      db2 = applyOps ops db := by
  induction ops with
  | nil =>
    intro i db db2 h
    cases h
    rfl
  | cons op rest ih =>
    intro i db db2 h
    simp only [runTransactionOps] at h
    by_cases hf : fails i = true
    · rw [if_pos hf] at h
      cases h
    · rw [if_neg hf] at h
      exact ih (i + 1) (op db) db2 h

/-- Store holding one soft-deleted document (id 1) from 2020 together
with its content row and one extracted field. -/
def purgeDb : StoreDb :=
  { documents := [⟨1, "old", some "invoice", "2020/doc.pdf", 10, "application/pdf",
      "2020-01-01T00:00:00", "2020-01-01T00:00:00", "deleted", none, none⟩]
    content := [⟨1, "text"⟩]
    fields := [⟨1, 1, "amount", "100", 9/10⟩]
    relations := []
    feedback := [] }

/-- C3 counterexample: in the bulk purge, a failure of the fifth statement
(the `documents` row deletion) leaves the store in a state that is neither
the original store nor the fully deleted one — the field and content rows
are gone while the document row survives.  The multi-row mutation of this
permanent-delete path is therefore not all-or-nothing. -/
theorem purge_not_atomic_counterexample :
    purge_deleted_documents "2023-01-01T00:00:00" (fun _ j => decide (j = 4))
        purgeDb ≠ purgeDb ∧
    purge_deleted_documents "2023-01-01T00:00:00" (fun _ j => decide (j = 4))
        purgeDb ≠ applyOps (permanentDeleteOps 1) purgeDb ∧
    (purge_deleted_documents "2023-01-01T00:00:00" (fun _ j => decide (j = 4))
        purgeDb).fields = [] ∧
    (purge_deleted_documents "2023-01-01T00:00:00" (fun _ j => decide (j = 4))
        purgeDb).documents = purgeDb.documents := by
  simp only [purge_deleted_documents, String.lt_iff_toList_lt]
  decide

/-- C3 amended: the API permanent-delete path runs its five row deletions
inside one transaction and is all-or-nothing — on a reported success the
store is exactly the fully deleted one, and on a reported failure the
store is rolled back unchanged. -/
theorem delete_document_permanent_atomic (fails : ℕ → Bool) (docId : ℕ)
    (db : StoreDb) :
    ((delete_document_permanent fails docId db).2 = true →
      delete_document_permanent fails docId db =
        (applyOps (permanentDeleteOps docId) db, true)) ∧
    ((delete_document_permanent fails docId db).2 = false →
      delete_document_permanent fails docId db = (db, false)) := by
  unfold delete_document_permanent execute_transaction
  cases hrun : runTransactionOps fails 0 (permanentDeleteOps docId) db with
  | some db2 =>
    simp only [hrun]
    refine ⟨fun _ => ?_, fun h => ?_⟩
    · rw [runTransactionOps_some fails (permanentDeleteOps docId) 0 db db2 hrun]
    · simp at h
  | none =>
    simp only [hrun]
    exact ⟨fun h => by simp at h, fun _ => trivial⟩

/-- Witness for the amended C3 at a concrete input: with no failing
statement the API permanent delete commits and produces exactly the fully
deleted store. -/
theorem delete_document_permanent_atomic_witness :
    delete_document_permanent (fun _ => false) 1 purgeDb =
      (applyOps (permanentDeleteOps 1) purgeDb, true) :=
  (delete_document_permanent_atomic (fun _ => false) 1 purgeDb).1 (by decide)

/-! ## Retraining (retrain_classifier, classifier.py lines 278-409) -/

/-- Joined row of the unapplied-feedback query (classifier.py 287-295):
document text and corrected classification, either of which may be null
or empty. -/
structure FeedbackTrainRow where
  content : Option String
  corrected_classification : Option String
deriving Repr, DecidableEq

/-- Joined row of the existing-training-data query (classifier.py
302-311). -/
structure TrainRow where
  content : Option String
  doc_type : Option String
deriving Repr, DecidableEq

/-- The (text, label) pairs assembled by `retrain_classifier` (classifier.py
313-333): typed documents first, then feedback rows labelled with the
corrected classification, keeping only rows whose text and label are both
truthy. -/
def trainingPairs (training : List TrainRow)
    (feedback : List FeedbackTrainRow) : List (String × String) :=
  (training.filterMap (fun r =>
    match r.content, r.doc_type with
    | some t, some l => if !t.isEmpty && !l.isEmpty then some (t, l) else none
    | _, _ => none)) ++
  (feedback.filterMap (fun r =>
    match r.content, r.corrected_classification with
    | some t, some l => if !t.isEmpty && !l.isEmpty then some (t, l) else none
    | _, _ => none))

/-- Observable outcome of a retraining run: whether the new model and
vectorizer artifacts were persisted and the in-use model swapped, whether
the unapplied feedback rows were marked applied, and the number of
training samples used. -/
structure RetrainResult where
  published : Bool
  feedbackApplied : Bool
  trainedCount : ℕ
deriving Repr, DecidableEq

/-- Embedding of `retrain_classifier` (classifier.py lines 278-409): the
run aborts before any side effect when there are fewer than 5 unapplied
feedback rows (line 297) or fewer than 10 usable (text, label) pairs
(line 335); otherwise it trains, persists both artifacts, marks feedback
applied and swaps the model. -/
def retrain_classifier (training : List TrainRow)
    (feedback : List FeedbackTrainRow) : RetrainResult :=
  if feedback.length < 5 then ⟨false, false, 0⟩
  else
    let pairs := trainingPairs training feedback
    if pairs.length < 10 then ⟨false, false, 0⟩
    else ⟨true, true, pairs.length⟩

/-- Ten typed one-character documents with nonempty text. -/
def tenTypedDocs : List TrainRow :=
  List.replicate 10 ⟨some "x", some "invoice"⟩

/-- C7 counterexample: with ten usable (text, label) pairs available from
typed documents but no unapplied feedback at all, the run still aborts —
`retrain_classifier` first requires at least 5 unapplied feedback rows
(classifier.py line 297), a precondition the claim omits. -/
theorem retrain_aborts_despite_ten_pairs :
    (trainingPairs tenTypedDocs []).length = 10 ∧
    retrain_classifier tenTypedDocs [] = ⟨false, false, 0⟩ := by
  constructor
  · rfl
  · rfl

/-- C7 amended: a retraining run aborts with no side effects (nothing
persisted, no feedback marked applied, model unchanged) whenever there are
fewer than 5 unapplied feedback rows or fewer than 10 usable (text, label)
pairs; with both thresholds met it trains on all the pairs and
publishes. -/
theorem retrain_classifier_thresholds (training : List TrainRow)
    (feedback : List FeedbackTrainRow) :
    ((feedback.length < 5 ∨ (trainingPairs training feedback).length < 10) →
      retrain_classifier training feedback = ⟨false, false, 0⟩) ∧
    (5 ≤ feedback.length → 10 ≤ (trainingPairs training feedback).length →
      retrain_classifier training feedback =
        ⟨true, true, (trainingPairs training feedback).length⟩) := by
  constructor
  · intro h
    unfold retrain_classifier
    rcases h with h | h
    · rw [if_pos h]
    · by_cases h5 : feedback.length < 5
      · rw [if_pos h5]
      · rw [if_neg h5, if_pos h]
  · intro h5 h10
    unfold retrain_classifier
    rw [if_neg (not_lt.mpr h5), if_neg (not_lt.mpr h10)]

/-- Witness for the amended C7 at concrete inputs: ten typed documents
with no feedback abort, and ten typed documents with five feedback rows
train on fifteen pairs and publish. -/
theorem retrain_classifier_thresholds_witness :
    retrain_classifier tenTypedDocs [] = ⟨false, false, 0⟩ ∧
    retrain_classifier tenTypedDocs
        (List.replicate 5 ⟨some "y", some "receipt"⟩) = ⟨true, true, 15⟩ :=
  ⟨(retrain_classifier_thresholds tenTypedDocs []).1 (Or.inl (by decide)),
   (retrain_classifier_thresholds tenTypedDocs
      (List.replicate 5 ⟨some "y", some "receipt"⟩)).2 (by decide) (by decide)⟩

/-! ## Search pagination (search_documents, app/api/search.py lines 17-145) -/

/-- `math.ceil(total / per_page)` for natural operands with a positive
divisor. -/
def pyCeilDiv (total perPage : ℕ) : ℕ :=
  (total + perPage - 1) / perPage

/-- Total-pages computation of search.py line 125:
`math.ceil(total / per_page) if total > 0 else 1`. -/
def totalPagesCalc (total perPage : ℕ) : ℕ :=
  if 0 < total then pyCeilDiv total perPage else 1

/-- Response fields relevant to pagination. -/
structure SearchResponseModel (α : Type) where
  total : ℕ
  page : ℕ
  per_page : ℕ
  total_pages : ℕ
  results : List α
deriving Repr, DecidableEq

/-- Embedding of the result assembly of `search_documents` (search.py
lines 17-141).  `hotMatches` is the full ordered match list of the hot
store (the `COUNT(*)` total is its length and `LIMIT ? OFFSET ?` takes the
page slice); `archiveResults` is what `search_archives` returns, appended
and added to the total only when archive inclusion is requested and query
text is truthy; `total_pages` is computed from the final total. -/
def search_documents {α : Type} (hotMatches archiveResults : List α)
    (includeArchives hasQueryText : Bool)
    (page perPage : ℕ) : SearchResponseModel α :=
  let total0 := hotMatches.length
  let pageRows := (hotMatches.drop ((page - 1) * perPage)).take perPage
  let withArchives := includeArchives && hasQueryText
  let results := if withArchives then pageRows ++ archiveResults else pageRows
  let total := if withArchives then total0 + archiveResults.length else total0
  { total := total
    page := page
    per_page := perPage
    total_pages := totalPagesCalc total perPage
    results := results }

/-- Total-pages formula of search.py line 125 equals ceiling division
clamped below by one. -/
theorem totalPagesCalc_eq_max (t perPage : ℕ) (hpp : 0 < perPage) :
    totalPagesCalc t perPage = max 1 (pyCeilDiv t perPage) := by
  unfold totalPagesCalc pyCeilDiv
  by_cases ht : 0 < t
  · rw [if_pos ht]
    have h1 : 1 ≤ (t + perPage - 1) / perPage := by
      rw [Nat.le_div_iff_mul_le hpp]
      omega
    omega
  · rw [if_neg ht]
    have ht0 : t = 0 := by omega
    subst ht0
    have h0 : (0 + perPage - 1) / perPage = 0 := Nat.div_eq_of_lt (by omega)
    omega

/-- C8: every search response reports
`total_pages = max 1 (ceil(total / per_page))` (so a zero total yields one
page), and the hot-store part of the returned results is exactly the slice
of the matches at offset `(page - 1) * per_page` of length at most
`per_page`, with archive results appended after it only when requested.
In particular page 2 with per-page 20 over 25 matches returns 5 rows and
2 total pages. -/
theorem search_documents_pagination {α : Type}
    (hotMatches archiveResults : List α) (includeArchives hasQueryText : Bool)
    (page perPage : ℕ) (hpp : 0 < perPage) :
    (search_documents hotMatches archiveResults includeArchives hasQueryText
        page perPage).total_pages =
      max 1 (pyCeilDiv (search_documents hotMatches archiveResults
        includeArchives hasQueryText page perPage).total perPage) ∧
    (search_documents hotMatches archiveResults includeArchives hasQueryText
        page perPage).results =
      (hotMatches.drop ((page - 1) * perPage)).take perPage ++
        (if includeArchives && hasQueryText then archiveResults else []) ∧
    ((hotMatches.drop ((page - 1) * perPage)).take perPage).length ≤ perPage := by
  refine ⟨?_, ?_, ?_⟩
  · exact totalPagesCalc_eq_max
      (search_documents hotMatches archiveResults includeArchives hasQueryText
        page perPage).total perPage hpp
  · show (if includeArchives && hasQueryText then _ else _) = _
    by_cases hw : (includeArchives && hasQueryText) = true
    · rw [if_pos hw, if_pos hw]
    · rw [if_neg hw, if_neg hw, List.append_nil]
  · exact le_trans (List.length_take_le _ _) le_rfl

/-- Witness for C8 at the concrete scenario of the specification: 25 hot
matches, page 2, per-page 20, no archives — the response carries 5 rows
and reports 2 total pages. -/
theorem search_documents_pagination_witness :
    ((search_documents (List.range 25) [] false false 2 20).results.length = 5 ∧
      (search_documents (List.range 25) [] false false 2 20).total_pages = 2) ∧
    (search_documents (List.range 25) [] false false 2 20).total_pages =
      max 1 (pyCeilDiv (search_documents (List.range 25) [] false false 2 20).total 20) :=
  ⟨⟨by decide, by decide⟩,
   (search_documents_pagination (List.range 25) [] false false 2 20
     (by decide)).1⟩

end DocLens
